import Mathlib

/-!
Verification of the master coordination core of the ESP32 multi-node MPPT
system (master_controller.cpp together with the enhanced master functions of
main.cpp).  Floating-point quantities are modelled as rationals; the uint32
millisecond clock is modelled by `Nat` with explicit wrap-around subtraction.
Serial output relevant to the verified properties is modelled as an abstract
log of events, and outgoing ESP-NOW broadcasts as a list of commands.
-/

/-- `uint32_t` subtraction `a - b` with wrap-around, as used on the
millisecond clock (`millis()` arithmetic). -/
def sub32 (a b : Nat) : Nat :=
  (a % 2 ^ 32 + (2 ^ 32 - b % 2 ^ 32)) % 2 ^ 32

-- ===== SYSTEM CONFIGURATION (master_controller.cpp defines) =====

def NUM_NODES : Nat := 4
def TARGET_SYSTEM_VOLTAGE : ℚ := 48
def TARGET_NODE_VOLTAGE : ℚ := TARGET_SYSTEM_VOLTAGE / (NUM_NODES : ℚ)
def VOLTAGE_RAMP_STEP : ℚ := 1 / 10
def MIN_SYSTEM_VOLTAGE : ℚ := 36
def MAX_SYSTEM_VOLTAGE : ℚ := 60
def VOLTAGE_BALANCE_TOLERANCE : ℚ := 1
def NODE_TIMEOUT : Nat := 5000
def OVERVOLTAGE_THRESHOLD : ℚ := 14
def OVERCURRENT_THRESHOLD : ℚ := 35
def EFFICIENCY_WARNING : ℚ := 80

-- ===== FAULT CODES =====

def FAULT_NONE : Nat := 0x00
def FAULT_NODE_OFFLINE : Nat := 0x01
def FAULT_OVERVOLTAGE_NODE : Nat := 0x02
def FAULT_OVERCURRENT_SYSTEM : Nat := 0x04
def FAULT_LOW_EFFICIENCY : Nat := 0x08
def FAULT_VOLTAGE_IMBALANCE : Nat := 0x10
def FAULT_SHADING_DETECTED : Nat := 0x20

-- ===== COMPENSATION CONSTANTS (integration guide additions) =====

def FAULT_MIN_POWER_DETECTION : ℚ := 1
def FAULT_VOLTAGE_COLLAPSE : ℚ := 5
def FAULT_CURRENT_COLLAPSE : ℚ := 1 / 2
def MIN_NODES_FOR_COMPENSATION : Nat := 2
def MAX_COMPENSATION_VOLTAGE : ℚ := 16

/-- `sizeof(NodeStatus_t)` on the ESP32 (4-byte aligned layout:
one `uint8_t` + padding, eight `float`s, one `uint8_t` + padding,
one `uint32_t`). -/
def nodeStatusSize : Nat := 44

-- ===== DATA STRUCTURES =====

/-- `NodeStatus_t`: per-node telemetry snapshot. -/
@[ext]
structure NodeStatus where
  node_id : Nat
  input_voltage : ℚ
  input_current : ℚ
  input_power : ℚ
  output_voltage : ℚ
  output_current : ℚ
  output_power : ℚ
  duty_cycle_percent : ℚ
  efficiency : ℚ
  status : Nat
  timestamp : Nat
deriving Repr, DecidableEq

/-- `MasterCommand_t`: the outbound broadcast frame. -/
@[ext]
structure MasterCommand where
  node_id : Nat
  target_voltage : ℚ
  max_current : ℚ
  command : Nat
deriving Repr, DecidableEq

/-- `NodeTracker_t`: per-node liveness bookkeeping. -/
@[ext]
structure NodeTracker where
  last_update : Nat
  is_online : Bool
  voltage_setpoint : ℚ
  consecutive_errors : Nat
  last_status : Nat
deriving Repr, DecidableEq

/-- `SystemState_t`: the aggregate recomputed each control cycle. -/
@[ext]
structure SystemState where
  total_input_power : ℚ
  total_output_power : ℚ
  total_output_current : ℚ
  system_voltage : ℚ
  system_efficiency : ℚ
  num_nodes_online : Nat
  num_shaded_nodes : Nat
  has_fault : Bool
  fault_code : Nat
deriving Repr, DecidableEq

/-- Serial messages relevant to the verified properties, abstracted. -/
inductive LogEvent where
  | nodeFailureAlert (numFaulty : Nat)
  | compensationActivated (v : ℚ)
  | criticalOneNode
  | criticalAllOffline
  | emergencyShutdownMsg
deriving Repr, DecidableEq

/-- The master's global mutable state (the globals of master_controller.cpp,
plus the broadcast and log streams as observable histories, plus a `halted`
flag recording that `emergency_stop` never returns - its closing `while (1)`
loop). -/
structure MasterState where
  node_status : Nat → NodeStatus
  node_tracker : Nat → NodeTracker
  system_state : SystemState
  voltage_setpoint : ℚ
  global_fault_state : Nat
  emergency_shutdown : Bool
  has_received_any_status : Bool
  command : Nat
  broadcasts : List MasterCommand
  log : List LogEvent
  halted : Bool

/-- The node indices the C loops `for (i = 1; i <= NUM_NODES; i++)` visit. -/
def nodeIds : List Nat := [1, 2, 3, 4]

-- ===== BROADCAST =====

/-- `broadcast_command_to_nodes`: refresh `current_command` from the current
setpoint (forcing the shutdown code when `emergency_shutdown` is set) and
send it to the broadcast address. -/
def broadcast_command_to_nodes (st : MasterState) : MasterState :=
  let cmd := if st.emergency_shutdown then 1 else st.command
  { st with
      command := cmd,
      broadcasts := st.broadcasts ++
        [⟨255, st.voltage_setpoint, OVERCURRENT_THRESHOLD, cmd⟩] }

-- ===== CALCULATE SYSTEM STATE =====

/-- Liveness test used by the aggregation loop:
`current_time - node_tracker[i].last_update < NODE_TIMEOUT`. -/
def fresh (tracker : Nat → NodeTracker) (now i : Nat) : Bool :=
  decide (sub32 now (tracker i).last_update < NODE_TIMEOUT)

/-- One iteration of the aggregation loop of `calculate_system_state`. -/
def aggStep (status : Nat → NodeStatus) (now : Nat)
    (acc : (Nat → NodeTracker) × SystemState) (i : Nat) :
    (Nat → NodeTracker) × SystemState :=
  if fresh acc.1 now i then
    (fun j => if j = i then { acc.1 i with is_online := true } else acc.1 j,
     { acc.2 with
        num_nodes_online := acc.2.num_nodes_online + 1,
        total_input_power := acc.2.total_input_power + (status i).input_power,
        total_output_power := acc.2.total_output_power + (status i).output_power,
        total_output_current := (status i).output_current,
        system_voltage := acc.2.system_voltage + (status i).output_voltage,
        num_shaded_nodes :=
          if (status i).status = 1 then acc.2.num_shaded_nodes + 1
          else acc.2.num_shaded_nodes })
  else
    (fun j => if j = i then { acc.1 i with is_online := false } else acc.1 j,
     acc.2)

/-- The zeroed accumulator `calculate_system_state` starts from (the fields
it does not reset keep their previous values). -/
def initSS (st : MasterState) : SystemState :=
  { total_input_power := 0
    total_output_power := 0
    total_output_current := 0
    system_voltage := 0
    system_efficiency := st.system_state.system_efficiency
    num_nodes_online := 0
    num_shaded_nodes := 0
    has_fault := false
    fault_code := st.system_state.fault_code }

/-- The efficiency derivation closing `calculate_system_state`. -/
def finishSS (ss : SystemState) : SystemState :=
  { ss with
      system_efficiency :=
        if ss.total_input_power > 1 / 10 then
          ss.total_output_power / ss.total_input_power * 100
        else 0 }

/-- `calculate_system_state`: aggregate all node statuses, refresh each
node's online flag, then derive overall efficiency. -/
def calculate_system_state (st : MasterState) (now : Nat) : MasterState :=
  let r := nodeIds.foldl (aggStep st.node_status now) (st.node_tracker, initSS st)
  { st with
      node_tracker := r.1,
      system_state := finishSS r.2 }

-- ===== OPTIMIZE VOLTAGE SETPOINT =====

/-- Arduino `constrain(amt, low, high)`. -/
def constrain (amt low high : ℚ) : ℚ :=
  if amt < low then low else if amt > high then high else amt

/-- The running maximum of online-node output voltages computed by the
optimizer and the fault detector (initial value `0.0`). -/
def onlineMaxV (st : MasterState) : ℚ :=
  nodeIds.foldl
    (fun a i =>
      if (st.node_tracker i).is_online then max a (st.node_status i).output_voltage
      else a) 0

/-- The running minimum of online-node output voltages computed by the
optimizer and the fault detector (initial value `100.0`). -/
def onlineMinV (st : MasterState) : ℚ :=
  nodeIds.foldl
    (fun a i =>
      if (st.node_tracker i).is_online then min a (st.node_status i).output_voltage
      else a) 100

/-- `optimize_voltage_setpoint`: guard, balance, efficiency, ramp - each
rule returning immediately - with a final clamp on the ramp path. -/
def optimize_voltage_setpoint (st : MasterState) : MasterState :=
  if st.system_state.num_nodes_online < 2 then st
  else if onlineMaxV st - onlineMinV st > VOLTAGE_BALANCE_TOLERANCE then
    if st.voltage_setpoint > MIN_SYSTEM_VOLTAGE / (NUM_NODES : ℚ) then
      { st with voltage_setpoint := st.voltage_setpoint - VOLTAGE_RAMP_STEP * (1 / 2) }
    else st
  else if st.system_state.system_efficiency < EFFICIENCY_WARNING ∧
      st.voltage_setpoint > MIN_SYSTEM_VOLTAGE / (NUM_NODES : ℚ) then
    { st with voltage_setpoint := st.voltage_setpoint - VOLTAGE_RAMP_STEP }
  else
    let target := st.voltage_setpoint * (NUM_NODES : ℚ)
    let sp :=
      if target < MAX_SYSTEM_VOLTAGE - 2 then st.voltage_setpoint + VOLTAGE_RAMP_STEP
      else if target > MAX_SYSTEM_VOLTAGE then st.voltage_setpoint - VOLTAGE_RAMP_STEP
      else st.voltage_setpoint
    { st with
        voltage_setpoint :=
          constrain sp (MIN_SYSTEM_VOLTAGE / (NUM_NODES : ℚ))
            (MAX_SYSTEM_VOLTAGE / (NUM_NODES : ℚ)) }

-- ===== DETECT FAULTS =====

/-- The fault bitmask freshly computed by `detect_faults` from the trackers,
statuses and system state (the function starts from `FAULT_NONE`, so its
result does not depend on the previous `global_fault_state`). -/
def computeFaultMask (st : MasterState) : Nat :=
  let m1 :=
    if nodeIds.any (fun i => !(st.node_tracker i).is_online) then
      FAULT_NONE ||| FAULT_NODE_OFFLINE
    else FAULT_NONE
  let m2 :=
    if nodeIds.any (fun i =>
        (st.node_tracker i).is_online &&
        decide ((st.node_status i).output_voltage > OVERVOLTAGE_THRESHOLD)) then
      m1 ||| FAULT_OVERVOLTAGE_NODE
    else m1
  let m3 :=
    if st.system_state.total_output_current > OVERCURRENT_THRESHOLD then
      m2 ||| FAULT_OVERCURRENT_SYSTEM
    else m2
  let m4 :=
    if st.system_state.system_efficiency < EFFICIENCY_WARNING ∧
        st.system_state.total_input_power > 10 then
      m3 ||| FAULT_LOW_EFFICIENCY
    else m3
  let m5 :=
    if onlineMaxV st - onlineMinV st > VOLTAGE_BALANCE_TOLERANCE then
      m4 ||| FAULT_VOLTAGE_IMBALANCE
    else m4
  if st.system_state.num_shaded_nodes > 0 then m5 ||| FAULT_SHADING_DETECTED
  else m5

/-- `detect_faults`: overwrite `global_fault_state` with the freshly
computed bitmask. -/
def detect_faults (st : MasterState) : MasterState :=
  { st with global_fault_state := computeFaultMask st }

-- ===== EMERGENCY STOP =====

/-- `emergency_stop`: set the emergency flag, force the setpoint to zero,
broadcast a shutdown command, and never return (`while (1)` blink loop,
modelled by `halted := true`). -/
def emergency_stop (st : MasterState) : MasterState :=
  let st1 := { st with
      emergency_shutdown := true,
      voltage_setpoint := 0,
      command := 1 }
  let st2 := broadcast_command_to_nodes st1
  { st2 with
      halted := true,
      log := st2.log ++ [LogEvent.emergencyShutdownMsg] }

-- ===== HANDLE FAULTS =====

/-- `handle_faults`: react to the bitmask.  All nodes offline escalates to
`emergency_stop` (which never returns, so the later bit handlers are then
dead code); the overvoltage and overcurrent bits each lower the setpoint;
the imbalance and shading bits only print. -/
def handle_faults (st : MasterState) : MasterState :=
  let m := st.global_fault_state
  if m = FAULT_NONE then st
  else if m &&& FAULT_NODE_OFFLINE ≠ 0 ∧ st.system_state.num_nodes_online = 0 then
    emergency_stop st
  else
    let st1 :=
      if m &&& FAULT_OVERVOLTAGE_NODE ≠ 0 then
        { st with voltage_setpoint := st.voltage_setpoint - VOLTAGE_RAMP_STEP * 2 }
      else st
    if m &&& FAULT_OVERCURRENT_SYSTEM ≠ 0 then
      { st1 with voltage_setpoint := st1.voltage_setpoint - VOLTAGE_RAMP_STEP }
    else st1

-- ===== COMPENSATION ENGINE (enhanced master functions of main.cpp) =====

/-- `detect_node_failures`: refresh each online node's `last_status`,
forcing the hard-fault code when its input power, voltage or current is
below the respective collapse floor. -/
def detect_node_failures (st : MasterState) : MasterState :=
  { st with
      node_tracker := fun j =>
        if j ∈ nodeIds ∧ (st.node_tracker j).is_online then
          { st.node_tracker j with
              last_status :=
                if (st.node_status j).input_power < FAULT_MIN_POWER_DETECTION ∨
                    (st.node_status j).input_voltage < FAULT_VOLTAGE_COLLAPSE ∨
                    (st.node_status j).input_current < FAULT_CURRENT_COLLAPSE then 255
                else (st.node_status j).status }
        else st.node_tracker j }

/-- The working-node test of `analyze_and_compensate_faults`: online with
input power, input voltage and input current above their floors. -/
def isWorking (st : MasterState) (i : Nat) : Bool :=
  (st.node_tracker i).is_online &&
  decide ((st.node_status i).input_power > FAULT_MIN_POWER_DETECTION) &&
  decide ((st.node_status i).input_voltage > FAULT_VOLTAGE_COLLAPSE) &&
  decide ((st.node_status i).input_current > FAULT_CURRENT_COLLAPSE)

/-- `num_working` as counted by `analyze_and_compensate_faults`. -/
def numWorking (st : MasterState) : Nat :=
  (nodeIds.filter (isWorking st)).length

/-- `num_faulty` as counted by `analyze_and_compensate_faults`. -/
def numFaulty (st : MasterState) : Nat :=
  (nodeIds.filter (fun i => !isWorking st i)).length

/-- `analyze_and_compensate_faults`: when faulty nodes exist, either
redistribute the system voltage target over the working nodes (clamped to
the per-node compensation ceiling) and broadcast immediately, or warn
critically while still attempting the full system target with one working
node, or trigger the emergency stop with none. -/
def analyze_and_compensate_faults (st : MasterState) : MasterState :=
  if numFaulty st > 0 then
    let st0 := { st with log := st.log ++ [LogEvent.nodeFailureAlert (numFaulty st)] }
    if numWorking st ≥ MIN_NODES_FOR_COMPENSATION then
      let c0 := TARGET_SYSTEM_VOLTAGE / (numWorking st : ℚ)
      let c := if c0 > MAX_COMPENSATION_VOLTAGE then MAX_COMPENSATION_VOLTAGE else c0
      broadcast_command_to_nodes
        { st0 with
            voltage_setpoint := c,
            log := st0.log ++ [LogEvent.compensationActivated c] }
    else if numWorking st = 1 then
      { st0 with
          voltage_setpoint := TARGET_SYSTEM_VOLTAGE,
          log := st0.log ++ [LogEvent.criticalOneNode] }
    else
      emergency_stop { st0 with log := st0.log ++ [LogEvent.criticalAllOffline] }
  else st

-- ===== RECEPTION =====

/-- `on_data_receive`: accept a frame only when its length equals
`sizeof(NodeStatus_t)` and its node id is in `1..NUM_NODES`; store the
status, stamp and reset the node's tracker entry, and raise the global
reception flag.  Anything else leaves every global untouched. -/
def on_data_receive (st : MasterState) (msg : NodeStatus) (len now : Nat) :
    MasterState :=
  if len = nodeStatusSize ∧ 1 ≤ msg.node_id ∧ msg.node_id ≤ NUM_NODES then
    { st with
        node_status := fun j => if j = msg.node_id then msg else st.node_status j,
        node_tracker := fun j =>
          if j = msg.node_id then
            { st.node_tracker j with
                last_update := now,
                is_online := true,
                consecutive_errors := 0 }
          else st.node_tracker j,
        has_received_any_status := true }
  else st

-- ===== EVENT-LEVEL STEP FUNCTION =====

/-- The externally triggered activities of the master: the asynchronous
reception callback, the periodic control cycle
(`calculate_system_state` / `optimize_voltage_setpoint` / `detect_faults` /
`handle_faults`), the periodic compensation check, the periodic command
broadcast, and the emergency button. -/
inductive MEvent where
  | receive (msg : NodeStatus) (len now : Nat)
  | controlTick (now : Nat)
  | compensationTick
  | broadcastTick
  | buttonPress
deriving Repr

/-- One event of the master's cooperative loop.  Once `emergency_stop` has
run, the processor is stuck in its `while (1)` loop, so no periodic task
runs again; the ESP-NOW reception callback fires regardless. -/
def masterStep (st : MasterState) (ev : MEvent) : MasterState :=
  match ev with
  | .receive msg len now => on_data_receive st msg len now
  | .controlTick now =>
      if st.halted then st
      else handle_faults (detect_faults (optimize_voltage_setpoint
        (calculate_system_state st now)))
  | .compensationTick =>
      if st.halted then st
      else analyze_and_compensate_faults (detect_node_failures st)
  | .broadcastTick =>
      if st.halted then st else broadcast_command_to_nodes st
  | .buttonPress =>
      if st.halted then st
      else emergency_stop { st with emergency_shutdown := true }

-- ===== HELPER LEMMAS ON THE AGGREGATION FOLD =====

lemma aggStep_last_update (status : Nat → NodeStatus) (now : Nat)
    (acc : (Nat → NodeTracker) × SystemState) (i j : Nat) :
    (((aggStep status now acc i).1) j).last_update = ((acc.1) j).last_update := by
  unfold aggStep
  split <;> by_cases h : j = i <;> simp [h]

lemma aggStep_fresh (status : Nat → NodeStatus) (now : Nat)
    (acc : (Nat → NodeTracker) × SystemState) (i : Nat) :
    fresh (aggStep status now acc i).1 now = fresh acc.1 now := by
  funext j
  unfold fresh
  rw [aggStep_last_update]

lemma aggStep_tracker_ne (status : Nat → NodeStatus) (now : Nat)
    (acc : (Nat → NodeTracker) × SystemState) (i j : Nat) (h : j ≠ i) :
    ((aggStep status now acc i).1) j = acc.1 j := by
  unfold aggStep
  split <;> simp [h]

lemma aggFold_tracker_not_mem (status : Nat → NodeStatus) (now : Nat)
    (l : List Nat) :
    ∀ acc j, j ∉ l → ((l.foldl (aggStep status now) acc).1) j = acc.1 j := by
  induction l with
  | nil => intro acc j _; rfl
  | cons x l ih =>
    intro acc j hj
    rw [List.foldl_cons, ih _ _ (fun h => hj (List.mem_cons_of_mem _ h)),
      aggStep_tracker_ne]
    intro h
    exact hj (h ▸ List.mem_cons_self _ _)

lemma aggFold_online (status : Nat → NodeStatus) (now : Nat) (l : List Nat) :
    ∀ acc i, i ∈ l →
      (((l.foldl (aggStep status now) acc).1) i).is_online = fresh acc.1 now i := by
  induction l with
  | nil => intro acc i hi; cases hi
  | cons x l ih =>
    intro acc i hi
    rw [List.foldl_cons]
    by_cases h : i ∈ l
    · rw [ih _ _ h, aggStep_fresh]
    · have hx : i = x := by
        rcases List.mem_cons.mp hi with h1 | h1
        · exact h1
        · exact absurd h1 h
      subst hx
      rw [aggFold_tracker_not_mem _ _ _ _ _ h]
      unfold aggStep
      split <;> simp_all

lemma aggFold_input (status : Nat → NodeStatus) (now : Nat) (l : List Nat) :
    ∀ acc, ((l.foldl (aggStep status now) acc).2).total_input_power =
      acc.2.total_input_power +
        ((l.filter (fresh acc.1 now)).map fun i => (status i).input_power).sum := by
  induction l with
  | nil => intro acc; simp
  | cons x l ih =>
    intro acc
    rw [List.foldl_cons, ih (aggStep status now acc x), aggStep_fresh]
    by_cases hfx : fresh acc.1 now x <;>
      simp only [aggStep, hfx, if_true, if_false, Bool.false_eq_true,
        List.filter_cons_of_pos, List.filter_cons_of_neg, List.map_cons,
        List.sum_cons, not_false_eq_true] <;>
      ring_nf

lemma aggFold_output (status : Nat → NodeStatus) (now : Nat) (l : List Nat) :
    ∀ acc, ((l.foldl (aggStep status now) acc).2).total_output_power =
      acc.2.total_output_power +
        ((l.filter (fresh acc.1 now)).map fun i => (status i).output_power).sum := by
  induction l with
  | nil => intro acc; simp
  | cons x l ih =>
    intro acc
    rw [List.foldl_cons, ih (aggStep status now acc x), aggStep_fresh]
    by_cases hfx : fresh acc.1 now x <;>
      simp only [aggStep, hfx, if_true, if_false, Bool.false_eq_true,
        List.filter_cons_of_pos, List.filter_cons_of_neg, List.map_cons,
        List.sum_cons, not_false_eq_true] <;>
      ring_nf

lemma aggFold_voltage (status : Nat → NodeStatus) (now : Nat) (l : List Nat) :
    ∀ acc, ((l.foldl (aggStep status now) acc).2).system_voltage =
      acc.2.system_voltage +
        ((l.filter (fresh acc.1 now)).map fun i => (status i).output_voltage).sum := by
  induction l with
  | nil => intro acc; simp
  | cons x l ih =>
    intro acc
    rw [List.foldl_cons, ih (aggStep status now acc x), aggStep_fresh]
    by_cases hfx : fresh acc.1 now x <;>
      simp only [aggStep, hfx, if_true, if_false, Bool.false_eq_true,
        List.filter_cons_of_pos, List.filter_cons_of_neg, List.map_cons,
        List.sum_cons, not_false_eq_true] <;>
      ring_nf

lemma aggFold_online_count (status : Nat → NodeStatus) (now : Nat) (l : List Nat) :
    ∀ acc, ((l.foldl (aggStep status now) acc).2).num_nodes_online =
      acc.2.num_nodes_online + (l.filter (fresh acc.1 now)).length := by
  induction l with
  | nil => intro acc; simp
  | cons x l ih =>
    intro acc
    rw [List.foldl_cons, ih (aggStep status now acc x), aggStep_fresh]
    by_cases hfx : fresh acc.1 now x <;>
      simp only [aggStep, hfx, if_true, if_false, Bool.false_eq_true,
        List.filter_cons_of_pos, List.filter_cons_of_neg, List.length_cons,
        not_false_eq_true] <;>
      omega

lemma aggFold_shaded (status : Nat → NodeStatus) (now : Nat) (l : List Nat) :
    ∀ acc, ((l.foldl (aggStep status now) acc).2).num_shaded_nodes =
      acc.2.num_shaded_nodes +
        ((l.filter (fresh acc.1 now)).filter fun i =>
          decide ((status i).status = 1)).length := by
  induction l with
  | nil => intro acc; simp
  | cons x l ih =>
    intro acc
    rw [List.foldl_cons, ih (aggStep status now acc x), aggStep_fresh]
    by_cases hfx : fresh acc.1 now x <;>
      by_cases hsx : (status x).status = 1 <;>
      simp only [aggStep, hfx, hsx, if_true, if_false, Bool.false_eq_true,
        List.filter_cons_of_pos, List.filter_cons_of_neg, List.filter_cons,
        List.length_cons, not_false_eq_true, decide_True, decide_False] <;>
      omega

lemma aggFold_has_fault (status : Nat → NodeStatus) (now : Nat) (l : List Nat) :
    ∀ acc, ((l.foldl (aggStep status now) acc).2).has_fault = acc.2.has_fault := by
  induction l with
  | nil => intro acc; rfl
  | cons x l ih =>
    intro acc
    rw [List.foldl_cons, ih (aggStep status now acc x)]
    unfold aggStep
    split <;> rfl

lemma aggFold_fault_code (status : Nat → NodeStatus) (now : Nat) (l : List Nat) :
    ∀ acc, ((l.foldl (aggStep status now) acc).2).fault_code = acc.2.fault_code := by
  induction l with
  | nil => intro acc; rfl
  | cons x l ih =>
    intro acc
    rw [List.foldl_cons, ih (aggStep status now acc x)]
    unfold aggStep
    split <;> rfl

lemma getLast?_getD_cons {α : Type} (a d : α) (l : List α) :
    ((a :: l).getLast?).getD d = (l.getLast?).getD a := by
  cases l with
  | nil => rfl
  | cons b m =>
    rw [List.getLast?_cons_cons]
    have h : ((b :: m).getLast?).isSome := by
      rw [List.getLast?_isSome]
      simp
    obtain ⟨y, hy⟩ := Option.isSome_iff_exists.mp h
    simp [hy]

lemma aggFold_current (status : Nat → NodeStatus) (now : Nat) (l : List Nat) :
    ∀ acc, ((l.foldl (aggStep status now) acc).2).total_output_current =
      (((l.filter (fresh acc.1 now)).map fun i =>
        (status i).output_current).getLast?).getD acc.2.total_output_current := by
  induction l with
  | nil => intro acc; simp
  | cons x l ih =>
    intro acc
    rw [List.foldl_cons, ih (aggStep status now acc x), aggStep_fresh]
    by_cases hfx : fresh acc.1 now x <;>
      simp only [aggStep, hfx, if_true, if_false, Bool.false_eq_true,
        List.filter_cons_of_pos, List.filter_cons_of_neg, List.map_cons,
        not_false_eq_true, getLast?_getD_cons]

-- ===== CLAIM THEOREMS =====

/-- C8: For every aggregation pass, the computed system efficiency equals
100 x total output power / total input power when total input power exceeds
the 0.1 W noise floor, and equals exactly 0 otherwise. -/
theorem c8_efficiency_formula (st : MasterState) (now : Nat) :
    ((calculate_system_state st now).system_state).system_efficiency =
      if ((calculate_system_state st now).system_state).total_input_power > 1 / 10 then
        100 * ((calculate_system_state st now).system_state).total_output_power /
          ((calculate_system_state st now).system_state).total_input_power
      else 0 := by
  have key : ∀ ss : SystemState, (finishSS ss).system_efficiency =
      if (finishSS ss).total_input_power > 1 / 10 then
        100 * (finishSS ss).total_output_power / (finishSS ss).total_input_power
      else 0 := by
    intro ss
    unfold finishSS
    split_ifs with h
    · ring
    · rfl
  exact key (nodeIds.foldl (aggStep st.node_status now) (st.node_tracker, initSS st)).2

/-- C9: Running the fault detector twice in succession on an unchanged
input yields an identical fault bitmask: the detector overwrites
`global_fault_state` with a value computed only from the trackers, the
statuses and the system state, never from the previous bitmask. -/
theorem c9_detect_idempotent (st : MasterState) :
    (detect_faults (detect_faults st)).global_fault_state =
      (detect_faults st).global_fault_state := rfl

/-- C5: Whenever the spread between the maximum and minimum online-node
output voltages exceeds the balance tolerance, one optimizer run never
increases the setpoint. -/
theorem c5_imbalance_no_increase (st : MasterState)
    (h : onlineMaxV st - onlineMinV st > VOLTAGE_BALANCE_TOLERANCE) :
    (optimize_voltage_setpoint st).voltage_setpoint ≤ st.voltage_setpoint := by
  unfold optimize_voltage_setpoint
  by_cases h1 : st.system_state.num_nodes_online < 2
  · rw [if_pos h1]
  · rw [if_neg h1, if_pos h]
    by_cases h3 : st.voltage_setpoint > MIN_SYSTEM_VOLTAGE / (NUM_NODES : ℚ)
    · rw [if_pos h3]
      show st.voltage_setpoint - VOLTAGE_RAMP_STEP * (1 / 2) ≤ st.voltage_setpoint
      norm_num [VOLTAGE_RAMP_STEP]
    · rw [if_neg h3]

/-- A snapshot with exactly two working nodes (1 and 2, fully productive)
and two faulty ones (3 and 4, online but producing nothing). -/
def c1State : MasterState :=
  { node_status := fun i =>
      if i = 1 ∨ i = 2 then ⟨i, 35, 8, 280, 12, 8, 96, 50, 95, 0, 0⟩
      else ⟨i, 0, 0, 0, 0, 0, 0, 0, 0, 255, 0⟩,
    node_tracker := fun _ => ⟨0, true, 12, 0, 0⟩,
    system_state := ⟨560, 192, 8, 24, 34, 4, 0, false, 0⟩,
    voltage_setpoint := 12,
    global_fault_state := 0,
    emergency_shutdown := false,
    has_received_any_status := true,
    command := 0,
    broadcasts := [],
    log := [],
    halted := false }

/-- C1 refuted as stated: with two working and two faulty nodes the engine
assigns `MAX_COMPENSATION_VOLTAGE` (16 V), not
`target_system_voltage / working` (24 V). -/
theorem c1_counterexample :
    2 ≤ numWorking c1State ∧ 1 ≤ numFaulty c1State ∧
    (analyze_and_compensate_faults c1State).voltage_setpoint ≠
      TARGET_SYSTEM_VOLTAGE / (numWorking c1State : ℚ) := by
  have hw : numWorking c1State = 2 := by
    norm_num [numWorking, isWorking, c1State, nodeIds, List.filter,
      FAULT_MIN_POWER_DETECTION, FAULT_VOLTAGE_COLLAPSE, FAULT_CURRENT_COLLAPSE]
  have hf : numFaulty c1State = 2 := by
    norm_num [numFaulty, isWorking, c1State, nodeIds, List.filter,
      FAULT_MIN_POWER_DETECTION, FAULT_VOLTAGE_COLLAPSE, FAULT_CURRENT_COLLAPSE]
  refine ⟨by omega, by omega, ?_⟩
  have hsp : (analyze_and_compensate_faults c1State).voltage_setpoint = 16 := by
    unfold analyze_and_compensate_faults
    rw [if_pos (by omega), if_pos (by rw [hw]; norm_num [MIN_NODES_FOR_COMPENSATION])]
    show (broadcast_command_to_nodes _).voltage_setpoint = 16
    simp only [broadcast_command_to_nodes]
    rw [hw]
    norm_num [TARGET_SYSTEM_VOLTAGE, MAX_COMPENSATION_VOLTAGE]
  rw [hsp, hw]
  norm_num [TARGET_SYSTEM_VOLTAGE]

/-- C1 (amended): with at least one faulty node and `working >= 2`, the
assigned setpoint equals `target_system_voltage / working` clamped to
`MAX_COMPENSATION_VOLTAGE`, and is always at most
`MAX_COMPENSATION_VOLTAGE`. -/
theorem c1_compensation_clamped (st : MasterState)
    (h1 : 1 ≤ numFaulty st) (h2 : MIN_NODES_FOR_COMPENSATION ≤ numWorking st) :
    (analyze_and_compensate_faults st).voltage_setpoint =
      (if TARGET_SYSTEM_VOLTAGE / (numWorking st : ℚ) > MAX_COMPENSATION_VOLTAGE
       then MAX_COMPENSATION_VOLTAGE
       else TARGET_SYSTEM_VOLTAGE / (numWorking st : ℚ)) ∧
    (analyze_and_compensate_faults st).voltage_setpoint ≤
      MAX_COMPENSATION_VOLTAGE := by
  unfold analyze_and_compensate_faults
  rw [if_pos (by omega), if_pos h2]
  constructor
  · show (broadcast_command_to_nodes _).voltage_setpoint = _
    simp [broadcast_command_to_nodes]
  · show (broadcast_command_to_nodes _).voltage_setpoint ≤ _
    simp only [broadcast_command_to_nodes]
    split_ifs with hc
    · exact le_refl _
    · exact le_of_not_lt hc

/-- C1 witness: the amended theorem evaluated on the two-working-node
snapshot. -/
theorem c1_witness :
    (analyze_and_compensate_faults c1State).voltage_setpoint =
      (if TARGET_SYSTEM_VOLTAGE / (numWorking c1State : ℚ) > MAX_COMPENSATION_VOLTAGE
       then MAX_COMPENSATION_VOLTAGE
       else TARGET_SYSTEM_VOLTAGE / (numWorking c1State : ℚ)) ∧
    (analyze_and_compensate_faults c1State).voltage_setpoint ≤
      MAX_COMPENSATION_VOLTAGE :=
  c1_compensation_clamped c1State
    (by norm_num [numFaulty, isWorking, c1State, nodeIds, List.filter,
      FAULT_MIN_POWER_DETECTION, FAULT_VOLTAGE_COLLAPSE, FAULT_CURRENT_COLLAPSE])
    (by norm_num [numWorking, isWorking, c1State, nodeIds, List.filter,
      MIN_NODES_FOR_COMPENSATION,
      FAULT_MIN_POWER_DETECTION, FAULT_VOLTAGE_COLLAPSE, FAULT_CURRENT_COLLAPSE])

/-- A snapshot with exactly one working node (node 1) and three faulty
ones. -/
def c6State : MasterState :=
  { node_status := fun i =>
      if i = 1 then ⟨i, 35, 8, 280, 12, 8, 96, 50, 95, 0, 0⟩
      else ⟨i, 0, 0, 0, 0, 0, 0, 0, 0, 255, 0⟩,
    node_tracker := fun _ => ⟨0, true, 12, 0, 0⟩,
    system_state := ⟨280, 96, 8, 12, 34, 4, 0, false, 0⟩,
    voltage_setpoint := 12,
    global_fault_state := 0,
    emergency_shutdown := false,
    has_received_any_status := true,
    command := 0,
    broadcasts := [],
    log := [],
    halted := false }

/-- C6: with exactly one working node and at least one faulty node the
engine logs the critical warning, commands the full system target voltage
(48 V, a best effort rather than a lowered target), and leaves the
emergency machinery untouched. -/
theorem c6_single_node_warning (st : MasterState)
    (h1 : numWorking st = 1) (h2 : 1 ≤ numFaulty st) :
    (analyze_and_compensate_faults st).voltage_setpoint = TARGET_SYSTEM_VOLTAGE ∧
    LogEvent.criticalOneNode ∈ (analyze_and_compensate_faults st).log ∧
    (analyze_and_compensate_faults st).emergency_shutdown = st.emergency_shutdown ∧
    (analyze_and_compensate_faults st).halted = st.halted := by
  unfold analyze_and_compensate_faults
  rw [if_pos (by omega),
    if_neg (by rw [h1]; exact by norm_num [MIN_NODES_FOR_COMPENSATION]),
    if_pos h1]
  refine ⟨rfl, ?_, rfl, rfl⟩
  simp

/-- C6 witness: the theorem evaluated on the one-working-node snapshot. -/
theorem c6_witness :
    (analyze_and_compensate_faults c6State).voltage_setpoint = TARGET_SYSTEM_VOLTAGE ∧
    LogEvent.criticalOneNode ∈ (analyze_and_compensate_faults c6State).log ∧
    (analyze_and_compensate_faults c6State).emergency_shutdown = c6State.emergency_shutdown ∧
    (analyze_and_compensate_faults c6State).halted = c6State.halted :=
  c6_single_node_warning c6State
    (by norm_num [numWorking, isWorking, c6State, nodeIds, List.filter,
      FAULT_MIN_POWER_DETECTION, FAULT_VOLTAGE_COLLAPSE, FAULT_CURRENT_COLLAPSE])
    (by norm_num [numFaulty, isWorking, c6State, nodeIds, List.filter,
      FAULT_MIN_POWER_DETECTION, FAULT_VOLTAGE_COLLAPSE, FAULT_CURRENT_COLLAPSE])

lemma constrain_mem (amt low high : ℚ) (h : low ≤ high) :
    low ≤ constrain amt low high ∧ constrain amt low high ≤ high := by
  unfold constrain
  split_ifs <;> constructor <;> linarith

/-- A snapshot with no node online and a wildly out-of-range setpoint. -/
def c2State : MasterState :=
  { node_status := fun i => ⟨i, 0, 0, 0, 0, 0, 0, 0, 0, 0, 0⟩,
    node_tracker := fun _ => ⟨0, false, 12, 0, 0⟩,
    system_state := ⟨0, 0, 0, 0, 0, 0, 0, false, 0⟩,
    voltage_setpoint := 100,
    global_fault_state := 0,
    emergency_shutdown := false,
    has_received_any_status := false,
    command := 0,
    broadcasts := [],
    log := [],
    halted := false }

/-- C2 refuted as stated: with fewer than 2 nodes online the optimizer
returns without clamping, so a setpoint of 100 V stays at 100 V, far above
`max_system_voltage / N` = 15 V. -/
theorem c2_counterexample :
    ¬ (MIN_SYSTEM_VOLTAGE / (NUM_NODES : ℚ) ≤
        (optimize_voltage_setpoint c2State).voltage_setpoint ∧
      (optimize_voltage_setpoint c2State).voltage_setpoint ≤
        MAX_SYSTEM_VOLTAGE / (NUM_NODES : ℚ)) := by
  have hsp : (optimize_voltage_setpoint c2State).voltage_setpoint = 100 := by
    unfold optimize_voltage_setpoint
    rw [if_pos (by norm_num [c2State])]
    rfl
  rw [hsp]
  norm_num [MAX_SYSTEM_VOLTAGE, NUM_NODES]

/-- C2 (amended): whenever the optimizer run reaches its final clamp - at
least 2 nodes online, online voltage spread within the balance tolerance,
and not (efficiency below the warning threshold while the setpoint exceeds
`min_system_voltage / N`) - the resulting setpoint lies within
`[min_system_voltage / N, max_system_voltage / N]`. -/
theorem c2_setpoint_in_range (st : MasterState)
    (h1 : 2 ≤ st.system_state.num_nodes_online)
    (h2 : onlineMaxV st - onlineMinV st ≤ VOLTAGE_BALANCE_TOLERANCE)
    (h3 : ¬ (st.system_state.system_efficiency < EFFICIENCY_WARNING ∧
        st.voltage_setpoint > MIN_SYSTEM_VOLTAGE / (NUM_NODES : ℚ))) :
    MIN_SYSTEM_VOLTAGE / (NUM_NODES : ℚ) ≤
      (optimize_voltage_setpoint st).voltage_setpoint ∧
    (optimize_voltage_setpoint st).voltage_setpoint ≤
      MAX_SYSTEM_VOLTAGE / (NUM_NODES : ℚ) := by
  unfold optimize_voltage_setpoint
  rw [if_neg (by omega), if_neg (not_lt.mpr h2), if_neg h3]
  exact constrain_mem _ _ _ (by norm_num [MIN_SYSTEM_VOLTAGE, MAX_SYSTEM_VOLTAGE, NUM_NODES])

/-- A balanced, efficient two-node snapshot for exercising the optimizer's
clamp path. -/
def c2GoodState : MasterState :=
  { node_status := fun i => ⟨i, 35, 8, 280, 12, 8, 96, 50, 95, 0, 0⟩,
    node_tracker := fun i => ⟨0, i = 1 ∨ i = 2, 12, 0, 0⟩,
    system_state := ⟨560, 532, 8, 24, 95, 2, 0, false, 0⟩,
    voltage_setpoint := 12,
    global_fault_state := 0,
    emergency_shutdown := false,
    has_received_any_status := true,
    command := 0,
    broadcasts := [],
    log := [],
    halted := false }

/-- C2 witness: the amended theorem evaluated on the balanced two-node
snapshot. -/
theorem c2_witness :
    MIN_SYSTEM_VOLTAGE / (NUM_NODES : ℚ) ≤
      (optimize_voltage_setpoint c2GoodState).voltage_setpoint ∧
    (optimize_voltage_setpoint c2GoodState).voltage_setpoint ≤
      MAX_SYSTEM_VOLTAGE / (NUM_NODES : ℚ) :=
  c2_setpoint_in_range c2GoodState
    (by norm_num [c2GoodState])
    (by norm_num [onlineMaxV, onlineMinV, c2GoodState, nodeIds,
      VOLTAGE_BALANCE_TOLERANCE])
    (by norm_num [c2GoodState, EFFICIENCY_WARNING])

lemma masterStep_halted_invariant (st : MasterState) (ev : MEvent)
    (h : st.halted = true) (he : st.emergency_shutdown = true)
    (hv : st.voltage_setpoint = 0) :
    (masterStep st ev).halted = true ∧
    (masterStep st ev).emergency_shutdown = true ∧
    (masterStep st ev).voltage_setpoint = 0 := by
  cases ev with
  | receive msg len now =>
    have hh : (on_data_receive st msg len now).halted = st.halted := by
      unfold on_data_receive
      split <;> rfl
    have hhe : (on_data_receive st msg len now).emergency_shutdown =
        st.emergency_shutdown := by
      unfold on_data_receive
      split <;> rfl
    have hhv : (on_data_receive st msg len now).voltage_setpoint =
        st.voltage_setpoint := by
      unfold on_data_receive
      split <;> rfl
    refine ⟨?_, ?_, ?_⟩
    · show (on_data_receive st msg len now).halted = true
      rw [hh]
      exact h
    · show (on_data_receive st msg len now).emergency_shutdown = true
      rw [hhe]
      exact he
    · show (on_data_receive st msg len now).voltage_setpoint = 0
      rw [hhv]
      exact hv
  | controlTick now => simp [masterStep, h, he, hv]
  | compensationTick => simp [masterStep, h, he, hv]
  | broadcastTick => simp [masterStep, h, he, hv]
  | buttonPress => simp [masterStep, h, he, hv]

lemma masterFold_halted_invariant (evs : List MEvent) :
    ∀ st : MasterState, st.halted = true → st.emergency_shutdown = true →
      st.voltage_setpoint = 0 →
      (evs.foldl masterStep st).halted = true ∧
      (evs.foldl masterStep st).emergency_shutdown = true ∧
      (evs.foldl masterStep st).voltage_setpoint = 0 := by
  induction evs with
  | nil => intro st h he hv; exact ⟨h, he, hv⟩
  | cons e evs ih =>
    intro st h he hv
    rw [List.foldl_cons]
    obtain ⟨a, b, c⟩ := masterStep_halted_invariant st e h he hv
    exact ih _ a b c

/-- C3: `emergency_stop` zeroes the setpoint and broadcasts a shutdown
command (code 1, target 0 V), and after it runs no sequence of subsequent
events - node status receptions included - ever clears the emergency state
or moves the setpoint off zero. -/
theorem c3_emergency_terminal (st : MasterState) (evs : List MEvent) :
    (emergency_stop st).voltage_setpoint = 0 ∧
    ((emergency_stop st).broadcasts).getLast? =
      some ⟨255, 0, OVERCURRENT_THRESHOLD, 1⟩ ∧
    (evs.foldl masterStep (emergency_stop st)).emergency_shutdown = true ∧
    (evs.foldl masterStep (emergency_stop st)).voltage_setpoint = 0 := by
  obtain ⟨-, he, hv⟩ := masterFold_halted_invariant evs (emergency_stop st) rfl rfl rfl
  refine ⟨rfl, ?_, he, hv⟩
  show (st.broadcasts ++ [(⟨255, 0, OVERCURRENT_THRESHOLD, 1⟩ : MasterCommand)]).getLast? = _
  exact List.getLast?_concat _

lemma calc_ss_eq (st : MasterState) (now : Nat) :
    (calculate_system_state st now).system_state =
      finishSS (nodeIds.foldl (aggStep st.node_status now)
        (st.node_tracker, initSS st)).2 := by
  simp only [calculate_system_state]

lemma calc_tracker_eq (st : MasterState) (now : Nat) :
    (calculate_system_state st now).node_tracker =
      (nodeIds.foldl (aggStep st.node_status now)
        (st.node_tracker, initSS st)).1 := by
  simp only [calculate_system_state]

lemma finishSS_voltage (ss : SystemState) :
    (finishSS ss).system_voltage = ss.system_voltage := rfl

lemma finishSS_input (ss : SystemState) :
    (finishSS ss).total_input_power = ss.total_input_power := rfl

lemma finishSS_output (ss : SystemState) :
    (finishSS ss).total_output_power = ss.total_output_power := rfl

lemma finishSS_current (ss : SystemState) :
    (finishSS ss).total_output_current = ss.total_output_current := rfl

lemma finishSS_online (ss : SystemState) :
    (finishSS ss).num_nodes_online = ss.num_nodes_online := rfl

lemma finishSS_shaded (ss : SystemState) :
    (finishSS ss).num_shaded_nodes = ss.num_shaded_nodes := rfl

lemma finishSS_has_fault (ss : SystemState) :
    (finishSS ss).has_fault = ss.has_fault := rfl

lemma finishSS_fault_code (ss : SystemState) :
    (finishSS ss).fault_code = ss.fault_code := rfl

/-- C7: each aggregation pass sums (not averages) the online nodes' output
voltages into the system voltage, sums their input and output powers, and
takes the system current from a single online node rather than summing. -/
theorem c7_aggregation_sums (st : MasterState) (now : Nat) :
    (calculate_system_state st now).system_state.system_voltage =
      ((nodeIds.filter (fresh st.node_tracker now)).map
        (fun i => (st.node_status i).output_voltage)).sum ∧
    (calculate_system_state st now).system_state.total_input_power =
      ((nodeIds.filter (fresh st.node_tracker now)).map
        (fun i => (st.node_status i).input_power)).sum ∧
    (calculate_system_state st now).system_state.total_output_power =
      ((nodeIds.filter (fresh st.node_tracker now)).map
        (fun i => (st.node_status i).output_power)).sum ∧
    ((calculate_system_state st now).system_state.num_nodes_online ≠ 0 →
      ∃ i ∈ nodeIds.filter (fresh st.node_tracker now),
        (calculate_system_state st now).system_state.total_output_current =
          (st.node_status i).output_current) := by
  rw [calc_ss_eq, finishSS_voltage, finishSS_input, finishSS_output,
    finishSS_online, finishSS_current, aggFold_voltage, aggFold_input,
    aggFold_output, aggFold_online_count, aggFold_current]
  refine ⟨by simp [initSS], by simp [initSS], by simp [initSS], ?_⟩
  intro hne
  have hne2 : (nodeIds.filter (fresh st.node_tracker now)).length ≠ 0 := by
    simpa [initSS] using hne
  have hnil : nodeIds.filter (fresh st.node_tracker now) ≠ [] := by
    intro hnilEq
    rw [hnilEq] at hne2
    simp at hne2
  have hmapne : ((nodeIds.filter (fresh st.node_tracker now)).map
      (fun i => (st.node_status i).output_current)) ≠ [] := by
    simpa using hnil
  obtain ⟨y, hy⟩ := Option.isSome_iff_exists.mp (List.getLast?_isSome.mpr hmapne)
  obtain ⟨i, hi, hfi⟩ := List.mem_map.mp (List.mem_of_getLast?_eq_some hy)
  refine ⟨i, hi, ?_⟩
  rw [hy]
  exact hfi.symm

lemma aggFold_eff (status : Nat → NodeStatus) (now : Nat) (l : List Nat) :
    ∀ acc, ((l.foldl (aggStep status now) acc).2).system_efficiency =
      acc.2.system_efficiency := by
  induction l with
  | nil => intro acc; rfl
  | cons x l ih =>
    intro acc
    rw [List.foldl_cons, ih (aggStep status now acc x)]
    unfold aggStep
    split <;> rfl

/-- C4: a node whose elapsed time since its last update exceeds the 5 s
liveness timeout is marked offline by the very next aggregation pass, and
the computed SystemState is insensitive to that node's reported status
(replacing it by anything leaves the aggregate unchanged). -/
theorem c4_stale_node_excluded (st : MasterState) (now i : Nat)
    (repl : NodeStatus) (hi : i ∈ nodeIds)
    (hstale : NODE_TIMEOUT < sub32 now ((st.node_tracker i).last_update)) :
    ((calculate_system_state st now).node_tracker i).is_online = false ∧
    (calculate_system_state
        { st with node_status := fun j => if j = i then repl else st.node_status j }
        now).system_state =
      (calculate_system_state st now).system_state := by
  have hfr : fresh st.node_tracker now i = false := by
    unfold fresh
    simp only [decide_eq_false_iff_not]
    omega
  have hne : ∀ j ∈ nodeIds.filter (fresh st.node_tracker now), j ≠ i := by
    intro j hj hji
    subst hji
    rw [List.mem_filter, hfr] at hj
    simp at hj
  constructor
  · rw [calc_tracker_eq,
      aggFold_online st.node_status now nodeIds (st.node_tracker, initSS st) i hi]
    exact hfr
  · rw [calc_ss_eq, calc_ss_eq]
    show finishSS (nodeIds.foldl
        (aggStep (fun j => if j = i then repl else st.node_status j) now)
        (st.node_tracker, initSS st)).2 = _
    suffices hAB : (nodeIds.foldl
        (aggStep (fun j => if j = i then repl else st.node_status j) now)
        (st.node_tracker, initSS st)).2 =
          (nodeIds.foldl (aggStep st.node_status now)
            (st.node_tracker, initSS st)).2 by
      rw [hAB]
    have hp : (st.node_tracker, initSS st).1 = st.node_tracker := rfl
    apply SystemState.ext
    · rw [aggFold_input, aggFold_input, hp]
      congr 1
      exact congrArg List.sum
        (List.map_congr_left fun j hj => by rw [if_neg (hne j hj)])
    · rw [aggFold_output, aggFold_output, hp]
      congr 1
      exact congrArg List.sum
        (List.map_congr_left fun j hj => by rw [if_neg (hne j hj)])
    · have hm : ((nodeIds.filter (fresh st.node_tracker now)).map
          fun j => (if j = i then repl else st.node_status j).output_current) =
          ((nodeIds.filter (fresh st.node_tracker now)).map
            fun j => (st.node_status j).output_current) :=
        List.map_congr_left fun j hj => by rw [if_neg (hne j hj)]
      rw [aggFold_current, aggFold_current, hp, hm]
    · rw [aggFold_voltage, aggFold_voltage, hp]
      congr 1
      exact congrArg List.sum
        (List.map_congr_left fun j hj => by rw [if_neg (hne j hj)])
    · rw [aggFold_eff, aggFold_eff]
    · rw [aggFold_online_count, aggFold_online_count]
    · have hq : ((nodeIds.filter (fresh st.node_tracker now)).filter
          fun j => decide ((if j = i then repl else st.node_status j).status = 1)) =
          ((nodeIds.filter (fresh st.node_tracker now)).filter
            fun j => decide ((st.node_status j).status = 1)) :=
        List.filter_congr fun j hj => by rw [if_neg (hne j hj)]
      rw [aggFold_shaded, aggFold_shaded, hp, hq]
    · rw [aggFold_has_fault, aggFold_has_fault]
    · rw [aggFold_fault_code, aggFold_fault_code]

/-- A snapshot in which node 1 went silent at t = 0 while nodes 2-4
reported at t = 4000, observed at t = 6000. -/
def c4State : MasterState :=
  { node_status := fun i => ⟨i, 35, 8, 280, 12, 8, 96, 50, 95, 0, 0⟩,
    node_tracker := fun i => ⟨if i = 1 then 0 else 4000, true, 12, 0, 0⟩,
    system_state := ⟨1120, 1064, 8, 48, 95, 4, 0, false, 0⟩,
    voltage_setpoint := 12,
    global_fault_state := 0,
    emergency_shutdown := false,
    has_received_any_status := true,
    command := 0,
    broadcasts := [],
    log := [],
    halted := false }

/-- C4 witness: the exclusion theorem evaluated on the stale-node-1
snapshot at t = 6000. -/
theorem c4_witness :
    ((calculate_system_state c4State 6000).node_tracker 1).is_online = false ∧
    (calculate_system_state
        { c4State with
            node_status := fun j =>
              if j = 1 then ⟨1, 99, 99, 9999, 99, 99, 9999, 50, 95, 1, 0⟩
              else c4State.node_status j }
        6000).system_state =
      (calculate_system_state c4State 6000).system_state :=
  c4_stale_node_excluded c4State 6000 1 ⟨1, 99, 99, 9999, 99, 99, 9999, 50, 95, 1, 0⟩
    (by decide) (by decide)

/-- Four fresh nodes at t = 1000 for exercising the aggregator. -/
def c7State : MasterState :=
  { node_status := fun i => ⟨i, 35, 8, 280, 12, 8, 96, 50, 95, 0, 0⟩,
    node_tracker := fun _ => ⟨0, true, 12, 0, 0⟩,
    system_state := ⟨0, 0, 0, 0, 0, 0, 0, false, 0⟩,
    voltage_setpoint := 12,
    global_fault_state := 0,
    emergency_shutdown := false,
    has_received_any_status := true,
    command := 0,
    broadcasts := [],
    log := [],
    halted := false }

/-- C7 witness: the aggregation theorem evaluated on the four-fresh-node
snapshot, with the nonempty-online hypothesis discharged there. -/
theorem c7_witness :
    (calculate_system_state c7State 1000).system_state.system_voltage =
      ((nodeIds.filter (fresh c7State.node_tracker 1000)).map
        (fun i => (c7State.node_status i).output_voltage)).sum ∧
    (calculate_system_state c7State 1000).system_state.total_input_power =
      ((nodeIds.filter (fresh c7State.node_tracker 1000)).map
        (fun i => (c7State.node_status i).input_power)).sum ∧
    (calculate_system_state c7State 1000).system_state.total_output_power =
      ((nodeIds.filter (fresh c7State.node_tracker 1000)).map
        (fun i => (c7State.node_status i).output_power)).sum ∧
    ∃ i ∈ nodeIds.filter (fresh c7State.node_tracker 1000),
      (calculate_system_state c7State 1000).system_state.total_output_current =
        (c7State.node_status i).output_current := by
  obtain ⟨h1, h2, h3, h4⟩ := c7_aggregation_sums c7State 1000
  refine ⟨h1, h2, h3, h4 ?_⟩
  rw [calc_ss_eq, finishSS_online, aggFold_online_count]
  simp [initSS, nodeIds, fresh, sub32, NODE_TIMEOUT, c7State]

/-- A pristine master state that has not yet received any status. -/
def c10State : MasterState :=
  { node_status := fun i => ⟨i, 0, 0, 0, 0, 0, 0, 0, 0, 0, 0⟩,
    node_tracker := fun _ => ⟨0, false, 12, 0, 0⟩,
    system_state := ⟨0, 0, 0, 0, 0, 0, 0, false, 0⟩,
    voltage_setpoint := 12,
    global_fault_state := 0,
    emergency_shutdown := false,
    has_received_any_status := false,
    command := 0,
    broadcasts := [],
    log := [],
    halted := false }

/-- A well-formed status frame from node 2. -/
def c10Msg : NodeStatus := ⟨2, 35, 8, 280, 12, 8, 96, 50, 95, 0, 777⟩

/-- C10 refuted as stated: a well-formed message also flips the global
reception flag, a piece of state outside the addressed node's slot and
tracker entry. -/
theorem c10_counterexample :
    (on_data_receive c10State c10Msg nodeStatusSize 123).has_received_any_status ≠
      c10State.has_received_any_status := by
  have h : (on_data_receive c10State c10Msg nodeStatusSize 123).has_received_any_status =
      true := by
    unfold on_data_receive
    rw [if_pos (by norm_num [c10Msg, nodeStatusSize, NUM_NODES])]
  rw [h]
  norm_num [c10State]

/-- C10 (amended): a message of the wrong length or with an out-of-range
node id leaves the whole master state unchanged; a well-formed message
modifies only the addressed node's status slot and tracker entry, apart
from raising the global reception flag. -/
theorem c10_receive_isolation (st : MasterState) (msg : NodeStatus)
    (len now : Nat) :
    (¬ (len = nodeStatusSize ∧ 1 ≤ msg.node_id ∧ msg.node_id ≤ NUM_NODES) →
      on_data_receive st msg len now = st) ∧
    ((len = nodeStatusSize ∧ 1 ≤ msg.node_id ∧ msg.node_id ≤ NUM_NODES) →
      (∀ j, j ≠ msg.node_id →
        (on_data_receive st msg len now).node_status j = st.node_status j ∧
        (on_data_receive st msg len now).node_tracker j = st.node_tracker j) ∧
      (on_data_receive st msg len now).node_status msg.node_id = msg ∧
      (on_data_receive st msg len now).node_tracker msg.node_id =
        { st.node_tracker msg.node_id with
            last_update := now, is_online := true, consecutive_errors := 0 } ∧
      (on_data_receive st msg len now).has_received_any_status = true ∧
      (on_data_receive st msg len now).system_state = st.system_state ∧
      (on_data_receive st msg len now).voltage_setpoint = st.voltage_setpoint ∧
      (on_data_receive st msg len now).global_fault_state = st.global_fault_state ∧
      (on_data_receive st msg len now).emergency_shutdown = st.emergency_shutdown ∧
      (on_data_receive st msg len now).command = st.command ∧
      (on_data_receive st msg len now).broadcasts = st.broadcasts ∧
      (on_data_receive st msg len now).log = st.log ∧
      (on_data_receive st msg len now).halted = st.halted) := by
  constructor
  · intro h
    unfold on_data_receive
    rw [if_neg h]
  · intro h
    unfold on_data_receive
    rw [if_pos h]
    refine ⟨fun j hj => ⟨by simp [hj], by simp [hj]⟩,
      by simp, by simp, rfl, rfl, rfl, rfl, rfl, rfl, rfl, rfl, rfl⟩

/-- C10 witness: a 5-byte frame is ignored entirely, and a well-formed
frame from node 2 leaves node 3's slot untouched. -/
theorem c10_witness :
    on_data_receive c10State c10Msg 5 123 = c10State ∧
    (on_data_receive c10State c10Msg nodeStatusSize 123).node_status 3 =
      c10State.node_status 3 :=
  ⟨(c10_receive_isolation c10State c10Msg 5 123).1
      (by norm_num [c10Msg, nodeStatusSize]),
   (((c10_receive_isolation c10State c10Msg nodeStatusSize 123).2
      (by norm_num [c10Msg, nodeStatusSize, NUM_NODES])).1 3
        (by norm_num [c10Msg])).1⟩

/-- A snapshot with two online nodes whose output voltages differ by 15 V. -/
def c5State : MasterState :=
  { node_status := fun i =>
      if i = 1 then ⟨1, 35, 8, 280, 20, 8, 160, 50, 95, 0, 0⟩
      else ⟨i, 35, 8, 280, 5, 8, 40, 50, 95, 0, 0⟩,
    node_tracker := fun i => ⟨0, i = 1 ∨ i = 2, 12, 0, 0⟩,
    system_state := ⟨560, 200, 8, 25, 35, 2, 0, false, 0⟩,
    voltage_setpoint := 12,
    global_fault_state := 0,
    emergency_shutdown := false,
    has_received_any_status := true,
    command := 0,
    broadcasts := [],
    log := [],
    halted := false }

/-- C5 witness: the no-increase theorem evaluated on the imbalanced
two-node snapshot. -/
theorem c5_witness :
    (optimize_voltage_setpoint c5State).voltage_setpoint ≤
      c5State.voltage_setpoint :=
  c5_imbalance_no_increase c5State
    (by norm_num [onlineMaxV, onlineMinV, c5State, nodeIds,
      VOLTAGE_BALANCE_TOLERANCE])
